import Mathlib

/-
Verification of the protocol-classification engine of wallet2cointracking.

The classifier `analyze_defi_interaction` (src/app_new/services/defi.py,
lines 245-584) and its rule catalog (src/defi_config.py) are embedded
shallowly below: Python strings become `String`, dicts with fixed keys
become structures, dicts used as ordered tables become association lists
(Python dicts preserve insertion order), and the metadata provider
(runtime.is_contract / get_token_meta) becomes an explicit `MetaProvider`
argument.  The truncated legacy entry point in src/app.py (lines
2347-2370) is embedded as `analyze_defi_interaction_app`, returning
`Option Classification` with `none` standing for Python `None`, which is
what that function produces when control falls off its end.

Python string helpers (`lower`, `upper`, `strip`, slicing, `in`) are
re-implemented over `List Char` so that all definitions reduce in the
kernel; they agree with Python on the ASCII data appearing in the
catalog and in transactions.
-/

def lowerChar (c : Char) : Char :=
  match c with
  | 'A' => 'a' | 'B' => 'b' | 'C' => 'c' | 'D' => 'd' | 'E' => 'e' | 'F' => 'f'
  | 'G' => 'g' | 'H' => 'h' | 'I' => 'i' | 'J' => 'j' | 'K' => 'k' | 'L' => 'l'
  | 'M' => 'm' | 'N' => 'n' | 'O' => 'o' | 'P' => 'p' | 'Q' => 'q' | 'R' => 'r'
  | 'S' => 's' | 'T' => 't' | 'U' => 'u' | 'V' => 'v' | 'W' => 'w' | 'X' => 'x'
  | 'Y' => 'y' | 'Z' => 'z' | c => c

def upperChar (c : Char) : Char :=
  match c with
  | 'a' => 'A' | 'b' => 'B' | 'c' => 'C' | 'd' => 'D' | 'e' => 'E' | 'f' => 'F'
  | 'g' => 'G' | 'h' => 'H' | 'i' => 'I' | 'j' => 'J' | 'k' => 'K' | 'l' => 'L'
  | 'm' => 'M' | 'n' => 'N' | 'o' => 'O' | 'p' => 'P' | 'q' => 'Q' | 'r' => 'R'
  | 's' => 'S' | 't' => 'T' | 'u' => 'U' | 'v' => 'V' | 'w' => 'W' | 'x' => 'X'
  | 'y' => 'Y' | 'z' => 'Z' | c => c

def pyLower (s : String) : String := ⟨s.data.map lowerChar⟩

def pyUpper (s : String) : String := ⟨s.data.map upperChar⟩

def pyLen (s : String) : Nat := s.data.length

def pyTake (s : String) (n : Nat) : String := ⟨s.data.take n⟩

def isSpaceChar (c : Char) : Bool :=
  c == ' ' || c == '\t' || c == '\n' || c == '\r' || c == '\x0b' || c == '\x0c'

def pyStrip (s : String) : String :=
  ⟨((s.data.dropWhile isSpaceChar).reverse.dropWhile isSpaceChar).reverse⟩

def beforeParen (s : String) : String :=
  ⟨s.data.takeWhile (fun c => !(c == '('))⟩

def listInfixOf : List Char → List Char → Bool
  | needle, [] => needle.isEmpty
  | needle, h :: t => needle.isPrefixOf (h :: t) || listInfixOf needle t

def pyContains (hay needle : String) : Bool := listInfixOf needle.data hay.data

def pyTitleAux : List Char → Bool → List Char
  | [], _ => []
  | c :: cs, prevCased =>
    if c.isAlpha then
      (if prevCased then lowerChar c else upperChar c) :: pyTitleAux cs true
    else
      c :: pyTitleAux cs false

def pyTitle (s : String) : String := ⟨pyTitleAux s.data false⟩

structure TokenMeta where
  name : String
  symbol : String
deriving DecidableEq, Repr

structure MetaProvider where
  isContract : String → String → Bool
  getTokenMeta : String → String → TokenMeta

structure Classification where
  is_defi : Bool
  protocol : Option String
  action : Option String
  type : Option String
  group : Option String
  exchange : Option String
deriving DecidableEq, Repr

def zeroClassification : Classification :=
  { is_defi := false, protocol := none, action := none, type := none,
    group := none, exchange := none }

structure Tx where
  «to» : String
  input : String
  functionName : String
  gasUsed : Nat
deriving DecidableEq, Repr

/-
Rule catalog, transcribed from src/defi_config.py.  A per-network config
dict becomes `NetCfg`; keys absent from a given dict keep their default
(empty) value, mirroring `dict.get` with a missing key.
-/

structure NetCfg where
  pool_addresses : List String := []
  router_addresses : List String := []
  pool_address : Option String := none
  router_address : Option String := none
  lending_pool : Option String := none
  factory_address : Option String := none
  methods : List (String × String) := []
deriving DecidableEq, Repr

def aave_v3_arbitrum : NetCfg :=
  { pool_addresses :=
      ["0x794a61358D6845594F94dc1DB02A252b5b4814aD",
       "0x69FA688f1Dc47d4B5d8029D5a35FB7a548310654",
       "0x6Ae43d3271ff6888e7Fc43Fd7321a503ff738951",
       "0x929EC64c34a17401F460460D4B9390518E5B473e"],
    methods :=
      [("supply", "0x617ba037"), ("withdraw", "0x693ec85e"),
       ("borrow", "0xa415bcad"), ("repay", "0x573ade81"),
       ("liquidation_call", "0x80e670ae"), ("flashloan", "0xab9c4b5d"),
       ("setUserUseReserveAsCollateral", "0x693ec85e")] }

def aave_v3_flare : NetCfg :=
  { pool_addresses := ["0x2E4C9Ab8518A443a2EbB4371C24a8246B30b3446"],
    methods :=
      [("supply", "0x617ba037"), ("withdraw", "0x693ec85e"),
       ("borrow", "0xa415bcad"), ("repay", "0x573ade81")] }

def AAVE_V3_CONFIG : List (String × NetCfg) :=
  [("arbitrum", aave_v3_arbitrum), ("flare", aave_v3_flare)]

def openocean_arbitrum : NetCfg :=
  { router_addresses :=
      ["0x6352a56caadc4f1e25cd6c21570aae1b9d1bc644",
       "0x6E2B76966cbD9cF4cC2Fa0D76d24d5241E0ABC2F"],
    methods :=
      [("swap", "0x12aa3caf"), ("swap_eth", "0x7ff36ab5"),
       ("swap_tokens_for_eth", "0x18cbafe5"),
       ("swap_eth_for_tokens", "0x7ff36ab5")] }

def openocean_flare : NetCfg :=
  { router_addresses := ["0x0000000000000000000000000000000000000000"],
    methods := [("swap", "0x12aa3caf"), ("swap_eth", "0x7ff36ab5")] }

def OPENOCEAN_CONFIG : List (String × NetCfg) :=
  [("arbitrum", openocean_arbitrum), ("flare", openocean_flare)]

def uniswap_v3_arbitrum : NetCfg :=
  { router_addresses :=
      ["0xE592427A0AEce92De3Edee1F18E0157C05861564",
       "0x68b3465833fb72A70ecDF485E0e4C7bD8665Fc45",
       "0x1F98431c8aD98523631AE4a59f267346ea31F984"],
    methods :=
      [("exact_input_single", "0x414bf389"), ("exact_input", "0xc04b8d59"),
       ("exact_output_single", "0xdb3e2198"), ("exact_output", "0xf28c0498"),
       ("mint", "0x88316456"), ("burn", "0xa34123a7"),
       ("collect", "0xfc6f7865"), ("swap", "0x128acb08")] }

def uniswap_v3_flare : NetCfg :=
  { router_addresses := ["0x0000000000000000000000000000000000000000"],
    methods :=
      [("exact_input_single", "0x414bf389"), ("exact_input", "0xc04b8d59"),
       ("mint", "0x88316456"), ("burn", "0xa34123a7"),
       ("collect", "0xfc6f7865")] }

def UNISWAP_V3_CONFIG : List (String × NetCfg) :=
  [("arbitrum", uniswap_v3_arbitrum), ("flare", uniswap_v3_flare)]

def sushiswap_arbitrum : NetCfg :=
  { router_addresses :=
      ["0x1b02dA8Cb0d097eB8D57A175b88c7D8b47997506",
       "0xE592427A0AEce92De3Edee1F18E0157C05861564"],
    methods :=
      [("swap_exact_tokens_for_tokens", "0x38ed1739"),
       ("swap_exact_eth_for_tokens", "0x7ff36ab5"),
       ("swap_exact_tokens_for_eth", "0x18cbafe5"),
       ("add_liquidity", "0xe8e33700"),
       ("remove_liquidity", "0xbaa2abde")] }

def sushiswap_flare : NetCfg :=
  { router_addresses := ["0x0000000000000000000000000000000000000000"],
    methods :=
      [("swap_exact_tokens_for_tokens", "0x38ed1739"),
       ("add_liquidity", "0xe8e33700"),
       ("remove_liquidity", "0xbaa2abde")] }

def SUSHISWAP_CONFIG : List (String × NetCfg) :=
  [("arbitrum", sushiswap_arbitrum), ("flare", sushiswap_flare)]

def sparkdex_v3_arbitrum : NetCfg :=
  { router_address := some "0x0Fc73040b26E9bC8514fA028D998E73A0E8584C8",
    factory_address := some "0x0227628f3F023bb0B980b67D528571c95c6DaC1c",
    methods :=
      [("exact_input_single", "0x414bf389"), ("exact_input", "0xc04b8d59"),
       ("mint", "0x88316456"), ("burn", "0xa34123a7"),
       ("collect", "0xfc6f7865")] }

def sparkdex_v3_flare : NetCfg :=
  { router_address := some "0x96E5ac8b2Eab7A4C33e0b5AA2E7E87F32117048a",
    factory_address := some "0x48C8613755D0b1aEd67B1Fd8fFD82BB821562E51",
    methods :=
      [("exact_input_single", "0x414bf389"), ("exact_input", "0xc04b8d59"),
       ("mint", "0x88316456"), ("burn", "0xa34123a7"),
       ("collect", "0xfc6f7865")] }

def SPARKDEX_V3_CONFIG : List (String × NetCfg) :=
  [("arbitrum", sparkdex_v3_arbitrum), ("flare", sparkdex_v3_flare)]

def kinetic_market_arbitrum : NetCfg :=
  { lending_pool := some "0x2f123cF3F37CE3328CC9B5b8415f9EC5109b45e7",
    methods :=
      [("deposit", "0x47e7ef24"), ("withdraw", "0x693ec85e"),
       ("borrow", "0xa415bcad"), ("repay", "0x573ade81")] }

def kinetic_market_flare : NetCfg :=
  { lending_pool := some "0x70e36f6BF80a52b3B46b3aF8e106CC0ed743E8e4",
    methods :=
      [("deposit", "0x47e7ef24"), ("withdraw", "0x693ec85e"),
       ("borrow", "0xa415bcad"), ("repay", "0x573ade81")] }

def KINETIC_MARKET_CONFIG : List (String × NetCfg) :=
  [("arbitrum", kinetic_market_arbitrum), ("flare", kinetic_market_flare)]

def FLARE_STAKING_CONFIG_wflr_contract : String :=
  "0x1D80c49BbBCd1C0911346656B529DF9E5c2F783d"

def FLARE_STAKING_CONFIG_ftso_manager : String :=
  "0x1000000000000000000000000000000000000003"

def FLARE_STAKING_CONFIG_methods : List (String × String) :=
  [("delegate", "0x5c19a95c"), ("undelegate", "0x5c19a95c"),
   ("claim_rewards", "0x3d18b912"), ("wrap", "0xd0e30db0"),
   ("unwrap", "0x2e1a7d4d")]

structure ProtoInfo where
  name : String
  addresses : List String
  methods : List (String × String)
deriving DecidableEq, Repr

def FLARE_DEFI_PROTOCOLS : List (String × ProtoInfo) :=
  [("aave_v3",
    { name := "Aave V3",
      addresses := ["0x2E4C9Ab8518A443a2EbB4371C24a8246B30b3446"],
      methods :=
        [("supply", "0x617ba037"), ("withdraw", "0x693ec85e"),
         ("borrow", "0xa415bcad"), ("repay", "0x573ade81"),
         ("flashloan", "0xab9c4b5d")] }),
   ("openocean",
    { name := "OpenOcean",
      addresses := ["0x6352a56caadc4f1e25cd6c21570aae1b9d1bc644"],
      methods :=
        [("swap", "0x12aa3caf"), ("swap_eth", "0x7ff36ab5"),
         ("swap_tokens_for_eth", "0x18cbafe5"),
         ("swap_eth_for_tokens", "0x7ff36ab5")] }),
   ("sparkdex_v3",
    { name := "SparkDEX V3",
      addresses :=
        ["0x96E5ac8b2Eab7A4C33e0b5AA2E7E87F32117048a",
         "0x48C8613755D0b1aEd67B1Fd8fFD82BB821562E51"],
      methods :=
        [("exact_input_single", "0x414bf389"), ("exact_input", "0xc04b8d59"),
         ("exact_output_single", "0xdb3e2198"), ("exact_output", "0xf28c0498"),
         ("mint", "0x88316456"), ("burn", "0xa34123a7"),
         ("collect", "0xfc6f7865"), ("swap", "0x128acb08")] }),
   ("kinetic_market",
    { name := "Kinetic Market",
      addresses := ["0x70e36f6BF80a52b3B46b3aF8e106CC0ed743E8e4"],
      methods :=
        [("deposit", "0x47e7ef24"), ("withdraw", "0x693ec85e"),
         ("borrow", "0xa415bcad"), ("repay", "0x573ade81")] }),
   ("flare_network",
    { name := "Flare Network",
      addresses :=
        ["0x1D80c49BbBCd1C0911346656B529DF9E5c2F783d",
         "0x1000000000000000000000000000000000000003"],
      methods :=
        [("delegate", "0x5c19a95c"), ("undelegate", "0x5c19a95c"),
         ("claim_rewards", "0x3d18b912"), ("wrap", "0xd0e30db0"),
         ("unwrap", "0x2e1a7d4d")] }),
   ("flare_swap",
    { name := "FlareSwap",
      addresses :=
        ["0x1234567890123456789012345678901234567890",
         "0xabcdef1234567890abcdef1234567890abcdef12"],
      methods :=
        [("swap_exact_tokens_for_tokens", "0x38ed1739"),
         ("swap_exact_eth_for_tokens", "0x7ff36ab5"),
         ("add_liquidity", "0xe8e33700"),
         ("remove_liquidity", "0xbaa2abde")] }),
   ("flare_lending",
    { name := "Flare Lending",
      addresses := ["0x9876543210987654321098765432109876543210"],
      methods :=
        [("supply", "0x617ba037"), ("withdraw", "0x693ec85e"),
         ("borrow", "0xa415bcad"), ("repay", "0x573ade81")] }),
   ("flare_dex",
    { name := "Flare DEX",
      addresses := ["0x1111111111111111111111111111111111111111"],
      methods := [("swap", "0x12aa3caf"), ("trade", "0x128acb08")] })]

def ARBITRUM_DEFI_PROTOCOLS : List (String × ProtoInfo) :=
  [("aave_v3",
    { name := "Aave V3",
      addresses :=
        ["0x794a61358D6845594F94dc1DB02A252b5b4814aD",
         "0x69FA688f1Dc47d4B5d8029D5a35FB7a548310654",
         "0x6Ae43d3271ff6888e7Fc43Fd7321a503ff738951",
         "0x929EC64c34a17401F460460D4B9390518E5B473e"],
      methods :=
        [("supply", "0x617ba037"), ("withdraw", "0x693ec85e"),
         ("borrow", "0xa415bcad"), ("repay", "0x573ade81"),
         ("liquidation_call", "0x80e670ae"), ("flashloan", "0xab9c4b5d")] }),
   ("openocean",
    { name := "OpenOcean",
      addresses :=
        ["0x6352a56caadc4f1e25cd6c21570aae1b9d1bc644",
         "0x6E2B76966cbD9cF4cC2Fa0D76d24d5241E0ABC2F"],
      methods :=
        [("swap", "0x12aa3caf"), ("swap_eth", "0x7ff36ab5"),
         ("swap_tokens_for_eth", "0x18cbafe5"),
         ("swap_eth_for_tokens", "0x7ff36ab5")] }),
   ("sparkdex_v3",
    { name := "SparkDEX V3",
      addresses :=
        ["0x0Fc73040b26E9bC8514fA028D998E73A0E8584C8",
         "0x0227628f3F023bb0B980b67D528571c95c6DaC1c"],
      methods :=
        [("exact_input_single", "0x414bf389"), ("exact_input", "0xc04b8d59"),
         ("exact_output_single", "0xdb3e2198"), ("exact_output", "0xf28c0498"),
         ("mint", "0x88316456"), ("burn", "0xa34123a7"),
         ("collect", "0xfc6f7865"), ("swap", "0x128acb08")] }),
   ("kinetic_market",
    { name := "Kinetic Market",
      addresses := ["0x2f123cF3F37CE3328CC9B5b8415f9EC5109b45e7"],
      methods :=
        [("deposit", "0x47e7ef24"), ("withdraw", "0x693ec85e"),
         ("borrow", "0xa415bcad"), ("repay", "0x573ade81")] }),
   ("curve",
    { name := "Curve Finance",
      addresses :=
        ["0x7D2768dE32b0b80b7a3454c06BdAc94A69DDc4A9",
         "0x8301AE4FC9C624DAD84C6F23A2F5C3B8F0A4B7C"],
      methods :=
        [("exchange", "0x3df02124"), ("add_liquidity", "0x4515cef3"),
         ("remove_liquidity", "0x1a4d01d2")] }),
   ("balancer",
    { name := "Balancer",
      addresses := ["0xBA12222222228d8Ba445958a75a0704d566BF2C8"],
      methods :=
        [("swap", "0x52bbbe29"), ("join_pool", "0xb95db5bb"),
         ("exit_pool", "0x8bdb3913")] }),
   ("compound",
    { name := "Compound",
      addresses := ["0x3d9819210A31b4961b30EF54bE2aeD79B9c9Cd3B"],
      methods :=
        [("mint", "0xa0712d68"), ("redeem", "0xdb006a75"),
         ("borrow", "0xc5ebeaec"), ("repay_borrow", "0x0e752702")] })]

def CURVE_LP_PATTERNS_symbols : List String :=
  ["3CRV", "3CRV-f", "CRV", "CRVLP", "CURVE", "CRV:", "sCRV", "yvBOOST",
   "gusd3CRV"]

def CURVE_LP_PATTERNS_names : List String :=
  ["curve", "lp token", "liquidity pool", "curve.fi", "curve lp"]

def ANGLE_PATTERNS_symbols : List String :=
  ["AGEUR", "agEUR", "ANGLE", "ANGLE:agEUR"]

def ANGLE_PATTERNS_names : List String :=
  ["angle", "angle protocol", "agEUR", "angle stable"]

def LIQUITY_PATTERNS_symbols : List String := ["LUSD", "LQTY", "LQTY:"]

def LIQUITY_PATTERNS_names : List String :=
  ["liquity", "lusd", "lqty", "liquity protocol"]

def ERC20_METHODS : List (String × String) :=
  [("transfer", "0xa9059cbb"), ("approve", "0x095ea7b3"),
   ("transfer_from", "0x23b872dd")]

def TRANSACTION_TYPES : List (String × String) :=
  [("supply", "Deposit"), ("withdraw", "Withdrawal"),
   ("borrow", "Borrowing"), ("repay", "Borrowing"),
   ("swap", "Trade"), ("trade", "Trade"),
   ("exact_input_single", "Trade"), ("exact_input", "Trade"),
   ("exact_output_single", "Trade"), ("exact_output", "Trade"),
   ("swap_exact_tokens_for_tokens", "Trade"),
   ("swap_exact_eth_for_tokens", "Trade"),
   ("swap_exact_tokens_for_eth", "Trade"),
   ("add_liquidity", "Deposit"), ("remove_liquidity", "Withdrawal"),
   ("mint", "Deposit"), ("burn", "Withdrawal"), ("collect", "Withdrawal"),
   ("delegate", "Staking"), ("undelegate", "Staking"),
   ("claim_rewards", "Staking"), ("wrap", "Deposit"),
   ("unwrap", "Withdrawal"), ("exchange", "Trade"),
   ("join_pool", "Deposit"), ("exit_pool", "Withdrawal"),
   ("redeem", "Withdrawal"), ("repay_borrow", "Borrowing"),
   ("interaction", "Trade")]

def EXCHANGE_NAMES : List (String × String) :=
  [("aave_v3", "Aave V3"), ("openocean", "OpenOcean"),
   ("uniswap_v3", "Uniswap V3"), ("sushiswap", "SushiSwap"),
   ("sparkdex_v3", "SparkDEX V3"), ("kinetic_market", "Kinetic Market"),
   ("flare_network", "Flare Network"), ("flare_staking", "Flare Staking"),
   ("flare_swap", "FlareSwap"), ("flare_lending", "Flare Lending"),
   ("flare_dex", "Flare DEX"), ("curve", "Curve Finance"),
   ("balancer", "Balancer"), ("compound", "Compound")]

def method_fallback_map : List (String × String) :=
  [("0x38ed1739", "openocean"), ("0x7ff36ab5", "openocean"),
   ("0x18cbafe5", "openocean"), ("0x12aa3caf", "openocean"),
   ("0x414bf389", "sparkdex_v3"), ("0xc04b8d59", "sparkdex_v3"),
   ("0xdb3e2198", "sparkdex_v3"), ("0xf28c0498", "sparkdex_v3"),
   ("0x88316456", "sparkdex_v3"), ("0xa34123a7", "sparkdex_v3"),
   ("0xfc6f7865", "sparkdex_v3"), ("0x128acb08", "sparkdex_v3"),
   ("0x617ba037", "aave_v3"), ("0x693ec85e", "aave_v3"),
   ("0xa415bcad", "aave_v3"), ("0x573ade81", "aave_v3"),
   ("0x80e670ae", "aave_v3"), ("0xab9c4b5d", "aave_v3"),
   ("0x47e7ef24", "kinetic_market"), ("0x5c19a95c", "flare_network"),
   ("0x3d18b912", "flare_network"), ("0xd0e30db0", "flare_network"),
   ("0x2e1a7d4d", "flare_network")]

def dictGetOpt (d : List (String × String)) (k : String) : Option String :=
  (d.find? (fun p => p.1 == k)).map (fun p => p.2)

def dictGetD (d : List (String × String)) (k dflt : String) : String :=
  (dictGetOpt d k).getD dflt

def cfgLookup (c : List (String × NetCfg)) (net : String) : Option NetCfg :=
  (c.find? (fun p => p.1 == net)).map (fun p => p.2)

/-
The classifier, src/app_new/services/defi.py lines 245-584, split into
the functions below in the order the Python code runs them.  Each branch
of the Python function that ends in `return result` becomes a value; a
section that may fall through to later checks returns an `Option`.
-/

def zeroAddress : String := "0x0000000000000000000000000000000000000000"

def methodSelector (input_data : String) : String :=
  if pyLen input_data ≥ 10 then pyTake input_data 10 else ""

def fnStripped (fn_name_raw : String) : String :=
  pyStrip (beforeParen fn_name_raw)

def erc20TrivialSelectors : List String :=
  [dictGetD ERC20_METHODS "transfer" "", dictGetD ERC20_METHODS "approve" "",
   dictGetD ERC20_METHODS "transfer_from" ""]

def ttGet (k dflt : String) : String := dictGetD TRANSACTION_TYPES k dflt

def exGetOpt (k : String) : Option String := dictGetOpt EXCHANGE_NAMES k

def exGetD (k dflt : String) : String := dictGetD EXCHANGE_NAMES k dflt

def methodScan (methods : List (String × String)) (msig : String) :
    Option String :=
  (methods.find? (fun p => msig == p.2)).map (fun p => p.1)

def flareGroup (protocol_name : String) : String :=
  if protocol_name ∈ ["sparkdex_v3", "openocean", "flare_swap", "flare_dex"]
    then "DEX Trading"
  else if protocol_name ∈ ["aave_v3", "kinetic_market", "flare_lending"]
    then "Lending"
  else if protocol_name ∈ ["flare_network"] then "Stacking (passiv)"
  else "Other"

def flareAddrMatch (to_address : String) (info : ProtoInfo) : Bool :=
  (info.addresses.filter
      (fun a => !(a == "") && !(a == zeroAddress))).any
    (fun a => to_address == pyLower a)

def findFlareProto (to_address : String) : Option (String × ProtoInfo) :=
  FLARE_DEFI_PROTOCOLS.find? (fun p => flareAddrMatch to_address p.2)

def flareProtoClassify (protocol_name : String) (info : ProtoInfo)
    (msig fn_name : String) : Classification :=
  let base : Classification :=
    { is_defi := true, protocol := some protocol_name, action := none,
      type := none, group := some (flareGroup protocol_name),
      exchange := some info.name }
  if fn_name ≠ "" then
    { base with
      action := some fn_name, type := some (ttGet fn_name "Trade") }
  else
    match methodScan info.methods msig with
    | some act =>
      { base with
        action := some act, type := some (ttGet act "Trade") }
    | none =>
      { base with
        action := some "interaction", type := some "Trade" }

def flareStakingClassify (msig fn_name : String) : Classification :=
  let base : Classification :=
    { is_defi := true, protocol := some "flare_staking", action := none,
      type := none, group := some "Stacking (passiv)",
      exchange := exGetOpt "flare_staking" }
  if fn_name ≠ "" then
    { base with
      action := some fn_name, type := some (ttGet fn_name "Staking") }
  else
    match methodScan FLARE_STAKING_CONFIG_methods msig with
    | some act =>
      { base with
        action := some act, type := some (ttGet act "Staking") }
    | none =>
      { base with
        action := some "stake", type := some "Staking" }

def protocols_to_check :
    List (String × List (String × NetCfg) × String) :=
  [("aave_v3", AAVE_V3_CONFIG, "Lending"),
   ("openocean", OPENOCEAN_CONFIG, "DEX Trading"),
   ("sparkdex_v3", SPARKDEX_V3_CONFIG, "DEX Trading"),
   ("uniswap_v3", UNISWAP_V3_CONFIG, "DEX Trading"),
   ("sushiswap", SUSHISWAP_CONFIG, "DEX Trading"),
   ("kinetic_market", KINETIC_MARKET_CONFIG, "Lending")]

def addressesToCheck (cfg : NetCfg) : List String :=
  cfg.pool_addresses ++ cfg.router_addresses ++ cfg.pool_address.toList ++
    cfg.router_address.toList ++ cfg.lending_pool.toList

def primaryAddrMatch (to_address : String) (cfg : NetCfg) : Bool :=
  ((addressesToCheck cfg).filter
      (fun a => !(a == "") && !(a == zeroAddress))).any
    (fun a => to_address == pyLower a)

def findPrimaryArbAux (network to_address : String) :
    List (String × List (String × NetCfg) × String) →
      Option (String × NetCfg × String)
  | [] => none
  | (nm, conf, grp) :: rest =>
    match cfgLookup conf network with
    | some cfg =>
      if primaryAddrMatch to_address cfg then some (nm, cfg, grp)
      else findPrimaryArbAux network to_address rest
    | none => findPrimaryArbAux network to_address rest

def findPrimaryArb (network to_address : String) :
    Option (String × NetCfg × String) :=
  findPrimaryArbAux network to_address protocols_to_check

def arbFnGroup (protocol_name default_group : String) : String :=
  if protocol_name ∈ ["uniswap_v3", "sparkdex_v3"] then "DEX Liquidity Mining"
  else if protocol_name ∈ ["aave_v3", "kinetic_market"] then "Lending"
  else if protocol_name ∈ ["openocean", "sushiswap"] then "DEX Trading"
  else default_group

def arbSelGroup (protocol_name act default_group : String) : String :=
  if protocol_name ∈ ["uniswap_v3", "sparkdex_v3"] ∧
      act ∈ ["mint", "burn", "collect"] then "DEX Liquidity Mining"
  else if protocol_name ∈ ["aave_v3", "kinetic_market"] then "Lending"
  else if protocol_name ∈ ["openocean", "sushiswap"] then "DEX Trading"
  else default_group

def arbPrimaryClassify (protocol_name : String) (cfg : NetCfg)
    (default_group msig fn_name : String) : Classification :=
  let base : Classification :=
    { is_defi := true, protocol := some protocol_name, action := none,
      type := none, group := some default_group,
      exchange := some (exGetD protocol_name (pyTitle protocol_name)) }
  if fn_name ≠ "" then
    { base with
      action := some fn_name, type := some (ttGet fn_name "Trade"),
      group := some (arbFnGroup protocol_name default_group) }
  else
    match methodScan cfg.methods msig with
    | some act =>
      { base with
        action := some act, type := some (ttGet act "Trade"),
        group := some (arbSelGroup protocol_name act default_group) }
    | none =>
      { base with
        action := some "interaction", type := some "Trade" }

def fallbackGroup (mapped : String) : String :=
  if mapped ∈ ["sparkdex_v3", "openocean", "sushiswap", "uniswap_v3"]
    then "DEX Trading"
  else if mapped ∈ ["aave_v3", "compound", "kinetic_market"] then "Lending"
  else if mapped ∈ ["flare_network"] then "Stacking (passiv)"
  else "Other"

def methodsOf (conf : List (String × NetCfg)) (net : String) :
    List (String × String) :=
  match cfgLookup conf net with
  | some cfg => cfg.methods
  | none => []

def findActionForSig : List (List (String × String)) → String → Option String
  | [], _ => none
  | c :: rest, msig =>
    match c.find? (fun p => p.2 == msig) with
    | some p => some p.1
    | none => findActionForSig rest msig

def arbFallback (network input_data : String) : Option Classification :=
  if input_data ≠ "" ∧ pyLen input_data ≥ 10 then
    let msig := pyTake input_data 10
    match dictGetOpt method_fallback_map msig with
    | some mapped =>
      let network_key := if network == "arbitrum" then "arbitrum" else "flare"
      let action_name := findActionForSig
        [methodsOf AAVE_V3_CONFIG network_key,
         methodsOf SPARKDEX_V3_CONFIG network_key,
         methodsOf OPENOCEAN_CONFIG network_key,
         methodsOf KINETIC_MARKET_CONFIG network_key,
         FLARE_STAKING_CONFIG_methods] msig
      let act := action_name.getD "interaction"
      some { is_defi := true, protocol := some mapped,
             action := some act, type := some (ttGet act "Trade"),
             group := some (fallbackGroup mapped),
             exchange := some (exGetD mapped (pyTitle mapped)) }
    | none => none
  else none

def arbSecondaryGroup (protocol_name : String) : String :=
  if protocol_name ∈ ["sparkdex_v3", "openocean", "curve", "balancer",
      "sushiswap"] then "DEX Trading"
  else if protocol_name ∈ ["aave_v3", "kinetic_market", "compound"]
    then "Lending"
  else "Other"

def arbSecondaryAddrMatch (to_address : String) (info : ProtoInfo) : Bool :=
  info.addresses.any (fun a => to_address == pyLower a)

def findArbSecondary (to_address : String) : Option (String × ProtoInfo) :=
  ARBITRUM_DEFI_PROTOCOLS.find? (fun p => arbSecondaryAddrMatch to_address p.2)

def arbSecondaryClassify (protocol_name : String) (info : ProtoInfo)
    (msig : String) : Classification :=
  let base : Classification :=
    { is_defi := true, protocol := some protocol_name, action := none,
      type := none, group := some (arbSecondaryGroup protocol_name),
      exchange := some info.name }
  match methodScan info.methods msig with
  | some act =>
    { base with
      action := some act, type := some (ttGet act "Trade") }
  | none =>
    { base with
      action := some "interaction", type := some "Trade" }

def symPatternHit (pats : List String) (sym : String) : Bool :=
  pats.any (fun p => pyContains sym (pyUpper p))

def namePatternHit (pats : List String) (name : String) : Bool :=
  pats.any (fun p => pyContains name p)

def curveClassification : Classification :=
  { is_defi := true, protocol := some "curve",
    action := some "add_liquidity",
    type := some (ttGet "add_liquidity" "Deposit"),
    group := some "DEX Liquidity Mining",
    exchange := some (exGetD "curve" "Curve Finance") }

def angleClassification : Classification :=
  { is_defi := true, protocol := some "angle", action := some "interaction",
    type := some (ttGet "interaction" "Trade"), group := some "Stablecoin",
    exchange := some "Angle" }

def liquityClassification : Classification :=
  { is_defi := true, protocol := some "liquity", action := some "borrow",
    type := some (ttGet "borrow" "Borrowing"), group := some "Lending",
    exchange := some "Liquity" }

def arbMetaHeuristic (p : MetaProvider) (to_address : String) :
    Option Classification :=
  if to_address ≠ "" ∧ p.isContract to_address "arbitrum" = true then
    let meta := p.getTokenMeta to_address "arbitrum"
    let sym := pyUpper meta.symbol
    let name := pyLower meta.name
    if symPatternHit CURVE_LP_PATTERNS_symbols sym ||
        namePatternHit CURVE_LP_PATTERNS_names name then
      some curveClassification
    else if symPatternHit ANGLE_PATTERNS_symbols sym ||
        namePatternHit ANGLE_PATTERNS_names name then
      some angleClassification
    else if symPatternHit LIQUITY_PATTERNS_symbols sym ||
        namePatternHit LIQUITY_PATTERNS_names name then
      some liquityClassification
    else none
  else none

def erc20MethodValues : List String := ERC20_METHODS.map (fun p => p.2)

def genericHeuristic (fn_name input_data msig : String) (gas_used : Nat) :
    Classification :=
  if fn_name ≠ "" ∨ (pyLen input_data > 10 ∧ msig ∉ erc20MethodValues) then
    let has_complex_input :=
      pyLen input_data > 10 && !(erc20MethodValues.contains msig)
    let has_function_name :=
      fn_name ≠ "" && !(fn_name ∈ ["transfer", "approve", "transferFrom"])
    let has_very_high_gas := gas_used > 200000
    if has_complex_input && (has_function_name || has_very_high_gas) then
      { is_defi := true, protocol := some "unknown",
        action := some (if fn_name ≠ "" then fn_name else "interaction"),
        type := some "Trade", group := some "Other",
        exchange := some
          (if msig ∈ ["0x88316456", "0xa34123a7", "0xfc6f7865"] then
            exGetD "sparkdex_v3" "SparkDEX V3"
          else "Unknown DeFi") }
    else zeroClassification
  else zeroClassification

def flareSection (to_address msig fn_name : String) : Option Classification :=
  match findFlareProto to_address with
  | some (nm, info) => some (flareProtoClassify nm info msig fn_name)
  | none =>
    if to_address == pyLower FLARE_STAKING_CONFIG_wflr_contract ||
        to_address == pyLower FLARE_STAKING_CONFIG_ftso_manager then
      some (flareStakingClassify msig fn_name)
    else none

def arbSection (p : MetaProvider)
    (network to_address input_data msig fn_name : String) :
    Option Classification :=
  match findPrimaryArb network to_address with
  | some (nm, cfg, grp) => some (arbPrimaryClassify nm cfg grp msig fn_name)
  | none =>
    match arbFallback network input_data with
    | some c => some c
    | none =>
      match findArbSecondary to_address with
      | some (nm, info) => some (arbSecondaryClassify nm info msig)
      | none => arbMetaHeuristic p to_address

def analyze_defi_interaction (p : MetaProvider) (tx : Tx)
    (network : String) : Classification :=
  let to_address := pyLower tx.to
  let input_data := tx.input
  if input_data == "" || input_data == "0x" then zeroClassification
  else
  let method_signature := methodSelector input_data
  if erc20TrivialSelectors.contains method_signature then zeroClassification
  else
  let fn_name := fnStripped tx.functionName
  match
    (if network == "flare" then
      flareSection to_address method_signature fn_name
    else none) with
  | some c => c
  | none =>
    match
      (if network == "arbitrum" then
        arbSection p network to_address input_data method_signature fn_name
      else none) with
    | some c => c
    | none => genericHeuristic fn_name input_data method_signature tx.gasUsed

/-
The legacy monolith entry point, src/app.py lines 2347-2370.  Its body
consists only of the two early returns; for any other input, control
falls off the end of the Python function, which returns `None`
(embedded as `none`).  The orphaned remainder of the original algorithm
sits unreachably inside `abi_decode` (after its final `return`, src/app.py
lines 2551-2917) and is therefore not part of this function's behaviour.
-/

def analyze_defi_interaction_app (tx : Tx) (network : String) :
    Option Classification :=
  let input_data := tx.input
  if input_data == "" || input_data == "0x" then some zeroClassification
  else
  let method_signature := methodSelector input_data
  if ["0xa9059cbb", "0x095ea7b3", "0x23b872dd"].contains method_signature then
    some zeroClassification
  else none

/-
Concrete fixtures used by the theorems below.
-/

def trivialProvider : MetaProvider :=
  { isContract := fun _ _ => false,
    getTokenMeta := fun _ _ => { name := "", symbol := "" } }

def zeros192 : String := String.mk (List.replicate 192 '0')

def emptyInputTx : Tx :=
  { «to» := "0x9999999999999999999999999999999999999999", input := "",
    functionName := "", gasUsed := 0 }

def complexInputTx : Tx :=
  { «to» := "0x9999999999999999999999999999999999999999",
    input := "0x12345678", functionName := "", gasUsed := 0 }

def unknownNetworkTx : Tx :=
  { «to» := "0x9999999999999999999999999999999999999999",
    input := "0x" ++ String.mk (List.replicate 64 'a'),
    functionName := "doSomethingComplex(bytes)", gasUsed := 50000 }

def sharedRouterTx : Tx :=
  { «to» := "0xE592427A0AEce92De3Edee1F18E0157C05861564",
    input := "0x38ed1739", functionName := "", gasUsed := 0 }

def aaveSupplyTx : Tx :=
  { «to» := "0x794a61358D6845594F94dc1DB02A252b5b4814aD",
    input := "0x617ba037" ++ zeros192, functionName := "", gasUsed := 0 }

def emptyStripTx : Tx :=
  { «to» := "0x794a61358D6845594F94dc1DB02A252b5b4814aD",
    input := "0x617ba037" ++ zeros192, functionName := "(uint256)",
    gasUsed := 0 }

def namedSupplyTx : Tx :=
  { «to» := "0x794a61358D6845594F94dc1DB02A252b5b4814aD",
    input := "0xdeadbeef", functionName := "supply(address,uint256)",
    gasUsed := 0 }

def wrapSelectorTx : Tx :=
  { «to» := "0x9999999999999999999999999999999999999999",
    input := "0xd0e30db0", functionName := "", gasUsed := 0 }

/-
Shared structural lemmas about the classifier's branches.
-/

theorem flareProtoClassify_is_defi (nm : String) (info : ProtoInfo)
    (msig fn : String) : (flareProtoClassify nm info msig fn).is_defi = true := by
  simp only [flareProtoClassify]
  split
  · rfl
  · split <;> rfl

theorem flareProtoClassify_protocol (nm : String) (info : ProtoInfo)
    (msig fn : String) :
    (flareProtoClassify nm info msig fn).protocol = some nm := by
  simp only [flareProtoClassify]
  split
  · rfl
  · split <;> rfl

theorem flareStakingClassify_is_defi (msig fn : String) :
    (flareStakingClassify msig fn).is_defi = true := by
  simp only [flareStakingClassify]
  split
  · rfl
  · split <;> rfl

theorem arbPrimaryClassify_is_defi (nm : String) (cfg : NetCfg)
    (grp msig fn : String) :
    (arbPrimaryClassify nm cfg grp msig fn).is_defi = true := by
  simp only [arbPrimaryClassify]
  split
  · rfl
  · split <;> rfl

theorem arbSecondaryClassify_is_defi (nm : String) (info : ProtoInfo)
    (msig : String) : (arbSecondaryClassify nm info msig).is_defi = true := by
  simp only [arbSecondaryClassify]
  split <;> rfl

theorem arbFallback_some_is_defi (network input : String) (c : Classification)
    (h : arbFallback network input = some c) : c.is_defi = true := by
  simp only [arbFallback] at h
  split at h
  · split at h
    · simp only [Option.some.injEq] at h
      subst h
      rfl
    · exact absurd h (by simp)
  · exact absurd h (by simp)

theorem arbMetaHeuristic_some_is_defi (p : MetaProvider) (a : String)
    (c : Classification) (h : arbMetaHeuristic p a = some c) :
    c.is_defi = true := by
  simp only [arbMetaHeuristic] at h
  split at h
  · split at h
    · simp only [Option.some.injEq] at h
      subst h
      rfl
    · split at h
      · simp only [Option.some.injEq] at h
        subst h
        rfl
      · split at h
        · simp only [Option.some.injEq] at h
          subst h
          rfl
        · exact absurd h (by simp)
  · exact absurd h (by simp)

theorem genericHeuristic_cases (fn input msig : String) (gas : Nat) :
    genericHeuristic fn input msig gas = zeroClassification ∨
    ((genericHeuristic fn input msig gas).is_defi = true ∧
     (genericHeuristic fn input msig gas).protocol = some "unknown") := by
  simp only [genericHeuristic]
  split
  · split
    · right
      exact ⟨rfl, rfl⟩
    · left
      rfl
  · left
    rfl

theorem flareSection_some_is_defi (a msig fn : String) (c : Classification)
    (h : flareSection a msig fn = some c) : c.is_defi = true := by
  simp only [flareSection] at h
  split at h
  · simp only [Option.some.injEq] at h
    subst h
    exact flareProtoClassify_is_defi _ _ _ _
  · split at h
    · simp only [Option.some.injEq] at h
      subst h
      exact flareStakingClassify_is_defi _ _
    · exact absurd h (by simp)

theorem arbSection_some_is_defi (p : MetaProvider)
    (network a input msig fn : String) (c : Classification)
    (h : arbSection p network a input msig fn = some c) : c.is_defi = true := by
  simp only [arbSection] at h
  split at h
  · simp only [Option.some.injEq] at h
    subst h
    exact arbPrimaryClassify_is_defi _ _ _ _ _
  · split at h
    · simp only [Option.some.injEq] at h
      subst h
      exact arbFallback_some_is_defi _ _ _ (by assumption)
    · split at h
      · simp only [Option.some.injEq] at h
        subst h
        exact arbSecondaryClassify_is_defi _ _ _
      · exact arbMetaHeuristic_some_is_defi _ _ _ h

theorem analyze_zero_or_defi (p : MetaProvider) (tx : Tx) (network : String) :
    analyze_defi_interaction p tx network = zeroClassification ∨
    (analyze_defi_interaction p tx network).is_defi = true := by
  simp only [analyze_defi_interaction]
  split
  · left
    rfl
  split
  · left
    rfl
  rcases hfs : (if network == "flare" then
      flareSection (pyLower tx.to) (methodSelector tx.input)
        (fnStripped tx.functionName)
    else none) with _ | c
  · simp only [hfs]
    rcases har : (if network == "arbitrum" then
        arbSection p network (pyLower tx.to) tx.input
          (methodSelector tx.input) (fnStripped tx.functionName)
      else none) with _ | c
    · simp only [har]
      rcases genericHeuristic_cases (fnStripped tx.functionName) tx.input
          (methodSelector tx.input) tx.gasUsed with hg | ⟨hg, _⟩
      · left
        exact hg
      · right
        exact hg
    · simp only [har]
      right
      by_cases hn : (network == "arbitrum") = true
      · rw [if_pos hn] at har
        exact arbSection_some_is_defi _ _ _ _ _ _ _ har
      · rw [if_neg hn] at har
        exact absurd har (by simp)
  · simp only [hfs]
    right
    by_cases hn : (network == "flare") = true
    · rw [if_pos hn] at hfs
      exact flareSection_some_is_defi _ _ _ _ hfs
    · rw [if_neg hn] at hfs
      exact absurd hfs (by simp)

set_option maxRecDepth 8000 in
/-- Claim C7: on network arbitrum, a transaction to the Aave V3 pool
address 0x794a61358D6845594F94dc1DB02A252b5b4814aD whose input is
0x617ba037 followed by 192 zero hex characters and whose functionName is
empty is classified exactly as is_defi true, protocol aave_v3, action
supply, type Deposit, group Lending. -/
theorem c7_scenario1_aave_supply :
    (analyze_defi_interaction trivialProvider aaveSupplyTx "arbitrum").is_defi
        = true ∧
    (analyze_defi_interaction trivialProvider aaveSupplyTx "arbitrum").protocol
        = some "aave_v3" ∧
    (analyze_defi_interaction trivialProvider aaveSupplyTx "arbitrum").action
        = some "supply" ∧
    (analyze_defi_interaction trivialProvider aaveSupplyTx "arbitrum").type
        = some "Deposit" ∧
    (analyze_defi_interaction trivialProvider aaveSupplyTx "arbitrum").group
        = some "Lending" := by
  refine ⟨?_, ?_, ?_, ?_, ?_⟩ <;> decide

/-- Claim C1: the claim states that both copies of
analyze_defi_interaction always return a well-formed six-key
classification and never return None.  The src/app.py copy violates
this: for a transaction whose input is non-trivial calldata with a
non-ERC20 selector, control falls off the end of the function and
Python returns None (embedded as `none`), while the
src/app_new/services/defi.py copy returns the well-formed zero
classification on the same input. -/
theorem c1_monolith_returns_none_on_complex_input :
    analyze_defi_interaction_app complexInputTx "arbitrum" = none ∧
    (analyze_defi_interaction trivialProvider complexInputTx
        "arbitrum").is_defi = false := by
  decide

/-- Claim C8: the classifier is deterministic: two providers answering
identically on every query give identical classifications on every
transaction and network. -/
theorem c8_deterministic (tx : Tx) (network : String) (p1 p2 : MetaProvider)
    (hc : ∀ a n, p1.isContract a n = p2.isContract a n)
    (hm : ∀ a n, p1.getTokenMeta a n = p2.getTokenMeta a n) :
    analyze_defi_interaction p1 tx network =
      analyze_defi_interaction p2 tx network := by
  have hp : p1 = p2 := by
    cases p1
    cases p2
    simp only [MetaProvider.mk.injEq]
    exact ⟨funext fun a => funext fun n => hc a n,
           funext fun a => funext fun n => hm a n⟩
  rw [hp]

/-- Witness for C8 at a concrete transaction and provider. -/
theorem c8_deterministic_witness :
    analyze_defi_interaction trivialProvider emptyInputTx "arbitrum" =
      analyze_defi_interaction trivialProvider emptyInputTx "arbitrum" :=
  c8_deterministic emptyInputTx "arbitrum" trivialProvider trivialProvider
    (fun _ _ => rfl) (fun _ _ => rfl)

/-- Claim C2: empty input, bare 0x input, or one of the three plain
ERC-20 selectors short-circuits both classifier copies to a
not-DeFi result. -/
theorem c2_trivial_transfer_zero (p : MetaProvider) (tx : Tx)
    (network : String)
    (h : tx.input = "" ∨ tx.input = "0x" ∨
      methodSelector tx.input ∈ ["0xa9059cbb", "0x095ea7b3", "0x23b872dd"]) :
    (analyze_defi_interaction p tx network).is_defi = false ∧
    analyze_defi_interaction_app tx network = some zeroClassification := by
  rcases h with h | h | h
  · constructor
    · simp [analyze_defi_interaction, h, zeroClassification]
    · simp [analyze_defi_interaction_app, h, zeroClassification]
  · constructor
    · simp [analyze_defi_interaction, h, zeroClassification]
    · simp [analyze_defi_interaction_app, h, zeroClassification]
  · have hlen : 10 ≤ pyLen tx.input := by
      by_contra hl
      have hms : methodSelector tx.input = "" := by
        rw [methodSelector, if_neg hl]
      rw [hms] at h
      exact absurd h (by decide)
    have h0 : tx.input ≠ "" := by
      intro e
      rw [e] at hlen
      exact absurd hlen (by decide)
    have h0x : tx.input ≠ "0x" := by
      intro e
      rw [e] at hlen
      exact absurd hlen (by decide)
    have hcond : (tx.input == "" || tx.input == "0x") = false := by
      simp [h0, h0x]
    have hlist : erc20TrivialSelectors =
        ["0xa9059cbb", "0x095ea7b3", "0x23b872dd"] := by decide
    have hsel : methodSelector tx.input ∈ erc20TrivialSelectors := by
      rw [hlist]
      exact h
    constructor
    · simp [analyze_defi_interaction, hcond, hsel, zeroClassification]
    · simp [analyze_defi_interaction_app, hcond, h, zeroClassification]

/-- Witness for C2 at a concrete transaction with empty input. -/
theorem c2_trivial_transfer_zero_witness :
    (analyze_defi_interaction trivialProvider emptyInputTx "flare").is_defi
        = false ∧
    analyze_defi_interaction_app emptyInputTx "flare"
        = some zeroClassification :=
  c2_trivial_transfer_zero trivialProvider emptyInputTx "flare" (Or.inl rfl)

/-- Claim C3: whenever the classifier reports is_defi false, the five
payload fields (protocol, action, type, group, exchange) are all null. -/
theorem c3_null_field_invariant (p : MetaProvider) (tx : Tx)
    (network : String)
    (h : (analyze_defi_interaction p tx network).is_defi = false) :
    (analyze_defi_interaction p tx network).protocol = none ∧
    (analyze_defi_interaction p tx network).action = none ∧
    (analyze_defi_interaction p tx network).type = none ∧
    (analyze_defi_interaction p tx network).group = none ∧
    (analyze_defi_interaction p tx network).exchange = none := by
  rcases analyze_zero_or_defi p tx network with hz | hd
  · rw [hz]
    exact ⟨rfl, rfl, rfl, rfl, rfl⟩
  · rw [hd] at h
    cases h

/-- Witness for C3 at a concrete not-DeFi transaction. -/
theorem c3_null_field_invariant_witness :
    (analyze_defi_interaction trivialProvider emptyInputTx
        "arbitrum").protocol = none ∧
    (analyze_defi_interaction trivialProvider emptyInputTx
        "arbitrum").action = none ∧
    (analyze_defi_interaction trivialProvider emptyInputTx
        "arbitrum").type = none ∧
    (analyze_defi_interaction trivialProvider emptyInputTx
        "arbitrum").group = none ∧
    (analyze_defi_interaction trivialProvider emptyInputTx
        "arbitrum").exchange = none :=
  c3_null_field_invariant trivialProvider emptyInputTx "arbitrum" (by decide)

set_option maxRecDepth 8000 in
/-- Claim C4 counterexample: on the unconfigured network "ethereum", a
transaction carrying complex calldata and a non-empty functionName is
classified is_defi true by the network-independent generic complexity
heuristic, refuting the claim that every unknown network yields
is_defi false. -/
theorem c4_unknown_network_counterexample :
    (analyze_defi_interaction trivialProvider unknownNetworkTx
        "ethereum").is_defi = true := by
  decide

/-- Claim C4 as amended: on a network that is neither flare nor
arbitrum the classifier never throws (it is a total function) and
returns either the zero classification or, when the generic complexity
heuristic fires, a classification whose protocol is the literal
"unknown". -/
theorem c4_unknown_network_amended (p : MetaProvider) (tx : Tx)
    (network : String) (h1 : network ≠ "flare") (h2 : network ≠ "arbitrum") :
    analyze_defi_interaction p tx network = zeroClassification ∨
    ((analyze_defi_interaction p tx network).is_defi = true ∧
     (analyze_defi_interaction p tx network).protocol = some "unknown") := by
  simp only [analyze_defi_interaction]
  split
  · left
    rfl
  split
  · left
    rfl
  rw [if_neg (show ¬ ((network == "flare") = true) by simp [h1])]
  rw [if_neg (show ¬ ((network == "arbitrum") = true) by simp [h2])]
  exact genericHeuristic_cases _ _ _ _

/-- Witness for the amended C4 at a concrete transaction and network. -/
theorem c4_unknown_network_amended_witness :
    analyze_defi_interaction trivialProvider unknownNetworkTx "ethereum"
        = zeroClassification ∨
    ((analyze_defi_interaction trivialProvider unknownNetworkTx
        "ethereum").is_defi = true ∧
     (analyze_defi_interaction trivialProvider unknownNetworkTx
        "ethereum").protocol = some "unknown") :=
  c4_unknown_network_amended trivialProvider unknownNetworkTx "ethereum"
    (by decide) (by decide)

set_option maxRecDepth 8000 in
theorem flareSection_some_not_staking (a msig fn : String)
    (c : Classification) (h : flareSection a msig fn = some c) :
    (c.protocol == some "flare_staking") = false := by
  rcases hf : findFlareProto a with _ | ⟨nm, info⟩
  · simp only [flareSection, hf] at h
    split at h
    · rename_i hcond
      have hcond' : a = pyLower FLARE_STAKING_CONFIG_wflr_contract ∨
          a = pyLower FLARE_STAKING_CONFIG_ftso_manager := by
        simpa using hcond
      rcases hcond' with ha | ha
      · rw [ha] at hf
        exact absurd hf (by decide)
      · rw [ha] at hf
        exact absurd hf (by decide)
    · exact absurd h (by simp)
  · simp only [flareSection, hf, Option.some.injEq] at h
    subst h
    rw [flareProtoClassify_protocol]
    have hmem : (nm, info) ∈ FLARE_DEFI_PROTOCOLS :=
      List.mem_of_find?_eq_some hf
    have hall : ∀ q ∈ FLARE_DEFI_PROTOCOLS, q.1 ≠ "flare_staking" := by decide
    have hne : nm ≠ "flare_staking" := hall (nm, info) hmem
    simp [hne]

/-- Claim C9: on network flare the classifier never reports protocol
flare_staking: both native-staking addresses are already listed under
the flare_network entry of FLARE_DEFI_PROTOCOLS, whose earlier
address loop matches and returns first, so the dedicated staking
branch is unreachable. -/
theorem c9_flare_staking_unreachable (p : MetaProvider) (tx : Tx) :
    ((analyze_defi_interaction p tx "flare").protocol
        == some "flare_staking") = false := by
  simp only [analyze_defi_interaction]
  split
  · rfl
  split
  · rfl
  rw [if_pos (show (("flare" : String) == "flare") = true from by decide)]
  rcases hfs : flareSection (pyLower tx.to) (methodSelector tx.input)
      (fnStripped tx.functionName) with _ | c
  · simp only [hfs]
    rw [if_neg (show ¬ ((("flare" : String) == "arbitrum") = true)
      from by decide)]
    show ((genericHeuristic (fnStripped tx.functionName) tx.input
        (methodSelector tx.input) tx.gasUsed).protocol
        == some "flare_staking") = false
    rcases genericHeuristic_cases (fnStripped tx.functionName) tx.input
        (methodSelector tx.input) tx.gasUsed with hg | ⟨_, hp2⟩
    · rw [hg]
      rfl
    · rw [hp2]
      decide
  · simp only [hfs]
    exact flareSection_some_not_staking _ _ _ _ hfs

set_option maxRecDepth 8000 in
/-- Claim C5: on arbitrum, when the to address matches a primary
per-protocol config (scanned in the fixed order aave_v3, openocean,
sparkdex_v3, uniswap_v3, sushiswap, kinetic_market), the whole
classification is the primary catalog entry's classification, so
neither the selector fallback map nor the secondary
ARBITRUM_DEFI_PROTOCOLS table is consulted; and the router address
0xE592427A0AEce92De3Edee1F18E0157C05861564, listed for both uniswap_v3
and sushiswap, is attributed to uniswap_v3, the protocol earlier in
that fixed order. -/
theorem c5_primary_catalog_precedence :
    (∀ (p : MetaProvider) (tx : Tx) (nm : String) (cfg : NetCfg)
        (grp : String),
      (tx.input == "" || tx.input == "0x") = false →
      erc20TrivialSelectors.contains (methodSelector tx.input) = false →
      findPrimaryArb "arbitrum" (pyLower tx.to) = some (nm, cfg, grp) →
      analyze_defi_interaction p tx "arbitrum" =
        arbPrimaryClassify nm cfg grp (methodSelector tx.input)
          (fnStripped tx.functionName)) ∧
    (analyze_defi_interaction trivialProvider sharedRouterTx
        "arbitrum").protocol = some "uniswap_v3" := by
  constructor
  · intro p tx nm cfg grp h0 h1 hfind
    simp only [analyze_defi_interaction]
    rw [if_neg (show ¬ ((tx.input == "" || tx.input == "0x") = true)
      from by simp [h0])]
    rw [if_neg (show
      ¬ (erc20TrivialSelectors.contains (methodSelector tx.input) = true)
      from fun hc => by rw [h1] at hc; exact Bool.noConfusion hc)]
    rw [if_neg (show ¬ ((("arbitrum" : String) == "flare") = true)
      from by decide)]
    rw [if_pos (show (("arbitrum" : String) == "arbitrum") = true
      from by decide)]
    simp only [arbSection, hfind]
  · decide

set_option maxRecDepth 8000 in
/-- Witness for the universally quantified part of C5 at the shared
uniswap_v3 and sushiswap router address. -/
theorem c5_primary_catalog_precedence_witness :
    analyze_defi_interaction trivialProvider sharedRouterTx "arbitrum" =
      arbPrimaryClassify "uniswap_v3" uniswap_v3_arbitrum "DEX Trading"
        (methodSelector sharedRouterTx.input)
        (fnStripped sharedRouterTx.functionName) :=
  c5_primary_catalog_precedence.1 trivialProvider sharedRouterTx
    "uniswap_v3" uniswap_v3_arbitrum "DEX Trading" (by decide) (by decide)
    (by decide)

set_option maxRecDepth 8000 in
/-- Claim C6 counterexample: for a transaction to an Aave V3 pool with
the supply selector and the non-empty functionName "(uint256)", whose
text before the first parenthesis strips to the empty string, the
returned action is the selector-derived "supply", not the stripped
functionName, refuting the claim for raw non-empty functionName. -/
theorem c6_functionName_counterexample :
    (emptyStripTx.functionName == "") = false ∧
    fnStripped emptyStripTx.functionName = "" ∧
    (analyze_defi_interaction trivialProvider emptyStripTx
        "arbitrum").action = some "supply" := by
  refine ⟨by decide, by decide, by decide⟩

/-- Claim C6 as amended: when the trivial-transfer short-circuit does
not fire and the functionName strips to a non-empty string (text before
the first parenthesis, whitespace stripped), a primary-catalog address
match on either network returns exactly that stripped string as the
action, even when the selector also matches the protocol's methods
map. -/
theorem c6_functionName_precedence_amended (p : MetaProvider) (tx : Tx)
    (h0 : (tx.input == "" || tx.input == "0x") = false)
    (h1 : erc20TrivialSelectors.contains (methodSelector tx.input) = false)
    (h2 : fnStripped tx.functionName ≠ "") :
    (∀ nm info, findFlareProto (pyLower tx.to) = some (nm, info) →
      (analyze_defi_interaction p tx "flare").action =
        some (fnStripped tx.functionName)) ∧
    (∀ nm cfg grp,
      findPrimaryArb "arbitrum" (pyLower tx.to) = some (nm, cfg, grp) →
      (analyze_defi_interaction p tx "arbitrum").action =
        some (fnStripped tx.functionName)) := by
  constructor
  · intro nm info hfind
    simp only [analyze_defi_interaction]
    rw [if_neg (show ¬ ((tx.input == "" || tx.input == "0x") = true)
      from by simp [h0])]
    rw [if_neg (show
      ¬ (erc20TrivialSelectors.contains (methodSelector tx.input) = true)
      from fun hc => by rw [h1] at hc; exact Bool.noConfusion hc)]
    rw [if_pos (show (("flare" : String) == "flare") = true from by decide)]
    simp only [flareSection, hfind]
    simp only [flareProtoClassify]
    rw [if_pos h2]
  · intro nm cfg grp hfind
    simp only [analyze_defi_interaction]
    rw [if_neg (show ¬ ((tx.input == "" || tx.input == "0x") = true)
      from by simp [h0])]
    rw [if_neg (show
      ¬ (erc20TrivialSelectors.contains (methodSelector tx.input) = true)
      from fun hc => by rw [h1] at hc; exact Bool.noConfusion hc)]
    rw [if_neg (show ¬ ((("arbitrum" : String) == "flare") = true)
      from by decide)]
    rw [if_pos (show (("arbitrum" : String) == "arbitrum") = true
      from by decide)]
    simp only [arbSection, hfind]
    simp only [arbPrimaryClassify]
    rw [if_pos h2]

/-- Witness for the amended C6 at an Aave V3 pool transaction whose
functionName strips to "supply". -/
theorem c6_functionName_precedence_amended_witness :
    (analyze_defi_interaction trivialProvider namedSupplyTx
        "arbitrum").action = some (fnStripped namedSupplyTx.functionName) :=
  (c6_functionName_precedence_amended trivialProvider namedSupplyTx
      (by decide) (by decide) (by decide)).2 "aave_v3" aave_v3_arbitrum
    "Lending" (by decide)

set_option maxRecDepth 8000 in
/-- Claim C10: on arbitrum, any transaction whose to address matches no
primary config and whose selector is 0xd0e30db0 is classified by the
selector fallback map as flare_network / wrap / Deposit /
Stacking (passiv), for every functionName and every provider, bypassing
the secondary catalog. -/
theorem c10_arbitrum_wrap_fallback (p : MetaProvider) (tx : Tx)
    (hprim : findPrimaryArb "arbitrum" (pyLower tx.to) = none)
    (hsel : methodSelector tx.input = "0xd0e30db0") :
    analyze_defi_interaction p tx "arbitrum" =
      { is_defi := true, protocol := some "flare_network",
        action := some "wrap", type := some "Deposit",
        group := some "Stacking (passiv)",
        exchange := some "Flare Network" } := by
  have hlen : 10 ≤ pyLen tx.input := by
    by_contra hl
    rw [methodSelector, if_neg hl] at hsel
    exact absurd hsel (by decide)
  have htake : pyTake tx.input 10 = "0xd0e30db0" := by
    rw [methodSelector, if_pos hlen] at hsel
    exact hsel
  have h0 : tx.input ≠ "" := by
    intro e
    rw [e] at hlen
    exact absurd hlen (by decide)
  have h0x : tx.input ≠ "0x" := by
    intro e
    rw [e] at hlen
    exact absurd hlen (by decide)
  simp only [analyze_defi_interaction]
  rw [if_neg (show ¬ ((tx.input == "" || tx.input == "0x") = true)
    from by simp [h0, h0x])]
  rw [if_neg (show
    ¬ (erc20TrivialSelectors.contains (methodSelector tx.input) = true)
    from by rw [hsel]; decide)]
  rw [if_neg (show ¬ ((("arbitrum" : String) == "flare") = true)
    from by decide)]
  rw [if_pos (show (("arbitrum" : String) == "arbitrum") = true
    from by decide)]
  simp only [arbSection, hprim, arbFallback]
  rw [if_pos (show tx.input ≠ "" ∧ pyLen tx.input ≥ 10 from ⟨h0, hlen⟩)]
  rw [htake]
  have hmap : dictGetOpt method_fallback_map "0xd0e30db0"
      = some "flare_network" := by decide
  simp only [hmap]
  decide

set_option maxRecDepth 8000 in
/-- Witness for C10 at a concrete unrecognized address with the wrap
selector. -/
theorem c10_arbitrum_wrap_fallback_witness :
    analyze_defi_interaction trivialProvider wrapSelectorTx "arbitrum" =
      { is_defi := true, protocol := some "flare_network",
        action := some "wrap", type := some "Deposit",
        group := some "Stacking (passiv)",
        exchange := some "Flare Network" } :=
  c10_arbitrum_wrap_fallback trivialProvider wrapSelectorTx (by decide)
    (by decide)
